import Mathlib

/-!
# Verification of the MT8000A / MT8821C remote-command library

Shallow embedding of `mt8000a_commands.py`: the command encoders (staticmethods
returning SCPI-like command strings), the Session write/query discipline over a
VISA transport, and the call-connection poller.  Python strings are embedded as
Lean `String`; Python `Optional` arguments as `Option`; Python truthiness of
optional strings is made explicit.  The poller (`wait_for_call_connected`) is
present in the source only as commented-out code, so it is modelled from the
specification's algorithm.
-/

namespace MT8000Lib

/-- Python's whitespace predicate for `str.strip()` (ASCII range). -/
def pyIsSpace (c : Char) : Bool :=
  c = ' ' || c = '\t' || c = '\n' || c = '\r' || c = '\x0b' || c = '\x0c'

/-- Embedding of Python `s.strip()`: remove leading and trailing whitespace. -/
def pystrip (s : String) : String :=
  ⟨((s.data.dropWhile pyIsSpace).reverse.dropWhile pyIsSpace).reverse⟩

/-- Embedding of Python `s.upper()` (ASCII case mapping). -/
def pyUpper (s : String) : String :=
  ⟨s.data.map Char.toUpper⟩

/-- Does `needle` occur as a contiguous sublist of the haystack? -/
def containsSeq (needle : List Char) : List Char → Bool
  | [] => needle.isPrefixOf []
  | c :: t => needle.isPrefixOf (c :: t) || containsSeq needle t

/-- Embedding of Python `needle in haystack` for strings (substring test). -/
def pyContains (haystack needle : String) : Bool :=
  containsSeq needle.data haystack.data

/-- A Python value passed to a `*args` variadic encoder: the source only ever
receives ints and strings there. -/
inductive PyArg where
  | int (n : Int)
  | str (s : String)
deriving DecidableEq, Repr

/-- Embedding of Python `str(a)` for the argument values used by the library. -/
def pyStr : PyArg → String
  | .int n => toString n
  | .str s => s

/-- Embedding of Python `','.join(strs)`: empty list yields `""`, otherwise
the elements separated by single commas. -/
def joinStrs : List String → String
  | [] => ""
  | [s] => s
  | s :: t :: rest => s ++ "," ++ joinStrs (t :: rest)

/-- Embedding of Python `','.join(str(a) for a in args)`. -/
def joinArgs (args : List PyArg) : String :=
  joinStrs (args.map pyStr)

/-- Python truthiness of an `Optional[str]` value: `None` and `""` are falsy. -/
def truthyOptStr : Option String → Bool
  | none => false
  | some s => s ≠ ""

/-- Embedding of the f-string rendering `f"{cc}"` of an `Optional[str]`
(Python renders `None` as `"None"`; the encoders only reach this in the
truthy branch, where the value is a nonempty string). -/
def showOptStr : Option String → String
  | none => "None"
  | some s => s

namespace MT8000A

/-- `opc`: `return "*OPC?"`. -/
def opc : String := "*OPC?"

/-- `set_call_processing(on_off)`: `return f"CALLPROC {'ON' if on_off else 'OFF'}"`. -/
def set_call_processing (on_off : Bool) : String :=
  "CALLPROC " ++ (if on_off then "ON" else "OFF")

/-- `query_call_status()`: `return "CALLSTAT?"`. -/
def query_call_status : String := "CALLSTAT?"

/-- `set_test_slot(slot, cc=None)`:
`if cc: return f"TESTSLOT {cc},{slot}" else: return f"TESTSLOT {slot}"`. -/
def set_test_slot (slot : String) (cc : Option String := none) : String :=
  if truthyOptStr cc then "TESTSLOT " ++ showOptStr cc ++ "," ++ slot
  else "TESTSLOT " ++ slot

/-- `query_system_select(system_num=None)`:
`if system_num is not None: return f"SYSSEL? {system_num}"; return "SYSSEL?"`. -/
def query_system_select (system_num : Option Int := none) : String :=
  match system_num with
  | some n => "SYSSEL? " ++ toString n
  | none => "SYSSEL?"

/-- `set_frame_type(mode, cc=None)`:
`if cc: return f"FRAMETYPE {cc},{mode}" else: return f"FRAMETYPE {mode}"`. -/
def set_frame_type (mode : String) (cc : Option String := none) : String :=
  if truthyOptStr cc then "FRAMETYPE " ++ showOptStr cc ++ "," ++ mode
  else "FRAMETYPE " ++ mode

/-- `set_band(cc, band)`: `return f"BAND {cc},{band}"`. -/
def set_band (cc : String) (band : Int) : String :=
  "BAND " ++ cc ++ "," ++ toString band

/-- `set_loss_table_value(*args)`:
`return f"LOSSTBLVAL {','.join(str(a) for a in args)}"`. -/
def set_loss_table_value (args : List PyArg) : String :=
  "LOSSTBLVAL " ++ joinArgs args

/-- `set_ul_alloc_list(*args)`:
`return f"ULALLOCLIST {','.join(str(a) for a in args)}"`. -/
def set_ul_alloc_list (args : List PyArg) : String :=
  "ULALLOCLIST " ++ joinArgs args

/-- `set_power_meas(on, avg=None)`:
`cmd = f"PWR_MEAS {'ON' if on else 'OFF'}"; if avg is not None: cmd += f"PWR_AVG {avg}"; return cmd`. -/
def set_power_meas («on» : Bool) (avg : Option Int := none) : String :=
  let cmd := "PWR_MEAS " ++ (if «on» then "ON" else "OFF")
  match avg with
  | some a => cmd ++ "PWR_AVG " ++ toString a
  | none => cmd

/-- `set_mod_meas(on, avg=None)`:
`cmd = f"MOD_MEAS {'ON' if on else 'OFF'}"; if avg is not None: cmd += f"MOD_AVG {avg}"; return cmd`. -/
def set_mod_meas («on» : Bool) (avg : Option Int := none) : String :=
  let cmd := "MOD_MEAS " ++ (if «on» then "ON" else "OFF")
  match avg with
  | some a => cmd ++ "MOD_AVG " ++ toString a
  | none => cmd

/-- `set_sem_meas(on, avg=None)`:
`cmd = f"SEM_MEAS {'ON' if on else 'OFF'}"; if avg is not None: cmd += f"SEM_AVG {avg}"; return cmd`. -/
def set_sem_meas («on» : Bool) (avg : Option Int := none) : String :=
  let cmd := "SEM_MEAS " ++ (if «on» then "ON" else "OFF")
  match avg with
  | some a => cmd ++ "SEM_AVG " ++ toString a
  | none => cmd

/-- `set_obw_meas(on)`: `return f"OBWMEAS {'ON' if on else 'OFF'}"`. -/
def set_obw_meas («on» : Bool) : String :=
  "OBWMEAS " ++ (if «on» then "ON" else "OFF")

/-- `set_aclr_meas(on)`: `return f"ACLR_MEAS {'ON' if on else 'OFF'}"`. -/
def set_aclr_meas («on» : Bool) : String :=
  "ACLR_MEAS " ++ (if «on» then "ON" else "OFF")

/-- `set_throughput_meas(on)`: `return f"TPUT_MEAS {'ON' if on else 'OFF'}"`. -/
def set_throughput_meas («on» : Bool) : String :=
  "TPUT_MEAS " ++ (if «on» then "ON" else "OFF")

/-- `set_power_temp_meas(on, avg=None)`:
`cmd = f"PWRTEMP_MEAS {'ON' if on else 'OFF'}"; if avg is not None: cmd += f";PWRTEMP_AVG {avg}"; return cmd`. -/
def set_power_temp_meas («on» : Bool) (avg : Option Int := none) : String :=
  let cmd := "PWRTEMP_MEAS " ++ (if «on» then "ON" else "OFF")
  match avg with
  | some a => cmd ++ ";PWRTEMP_AVG " ++ toString a
  | none => cmd

/-- `query_spec_flatness(direction="")`:
`if direction: return f"SPECFLAT_{direction}?"; return "SPECFLAT?"`. -/
def query_spec_flatness (direction : String := "") : String :=
  if direction ≠ "" then "SPECFLAT_" ++ direction ++ "?"
  else "SPECFLAT?"

/-- `query_sem_pass(mode="")`: `cmd = "SEMPASS?"; if mode: cmd += f" {mode}"; return cmd`. -/
def query_sem_pass (mode : String := "") : String :=
  let cmd := "SEMPASS?"
  if mode ≠ "" then cmd ++ " " ++ mode else cmd

/-- `query_ttl_worst_sem(mode="")`:
`cmd = "TTL_WORST_SEM?"; if mode: cmd += f" {mode}"; return cmd`. -/
def query_ttl_worst_sem (mode : String := "") : String :=
  let cmd := "TTL_WORST_SEM?"
  if mode ≠ "" then cmd ++ " " ++ mode else cmd

/-- `query_aclr(*args)`:
`cmd = "ACLR?"; if args: cmd += " " + ",".join(str(a) for a in args); return cmd`. -/
def query_aclr (args : List PyArg) : String :=
  let cmd := "ACLR?"
  if args ≠ [] then cmd ++ " " ++ joinArgs args else cmd

/-- `query_channel_power(*args)`:
`cmd = "CHPWR?"; if args: cmd += " " + ",".join(str(a) for a in args); return cmd`. -/
def query_channel_power (args : List PyArg) : String :=
  let cmd := "CHPWR?"
  if args ≠ [] then cmd ++ " " ++ joinArgs args else cmd

/-- `query_inband_emission_general(*args)`:
`cmd = "INBANDE_GEN?"; if args: cmd += " " + ",".join(str(a) for a in args); return cmd`. -/
def query_inband_emission_general (args : List PyArg) : String :=
  let cmd := "INBANDE_GEN?"
  if args ≠ [] then cmd ++ " " ++ joinArgs args else cmd

end MT8000A

namespace MT8821C

/-- `MT8821C.set_call_processing(on_off)`: `return f"CALLPROC {'ON' if on_off else 'OFF'}"`. -/
def set_call_processing (on_off : Bool) : String :=
  "CALLPROC " ++ (if on_off then "ON" else "OFF")

/-- `MT8821C.set_power_meas(on)`: `return f"PWR_MEAS {'ON' if on else 'OFF'}"`. -/
def set_power_meas («on» : Bool) : String :=
  "PWR_MEAS " ++ (if «on» then "ON" else "OFF")

/-- `MT8821C.set_throughput_meas(on)`: `return f"TPUT_MEAS {'ON' if on else 'OFF'}"`. -/
def set_throughput_meas («on» : Bool) : String :=
  "TPUT_MEAS " ++ (if «on» then "ON" else "OFF")

end MT8821C

/-! ## Session / transport model

The two classes wrap a pyvisa resource exposing `write(cmd)` and
`query(cmd) -> str`.  The transport is modelled by its behaviour (the outcome
it produces for each command) plus an observable state recording the
operations issued to it, in order; a transport failure is an `Except.error`. -/

/-- A transport-level failure raised by the underlying VISA resource. -/
structure TError where
  msg : String
deriving DecidableEq, Repr

/-- One operation issued to the VISA transport. -/
inductive TCall where
  | write (cmd : String)
  | query (cmd : String)
deriving DecidableEq, Repr

/-- The transport's behaviour: the outcome it produces for each command. -/
structure VisaBehavior where
  writeRes : String → Except TError Unit
  queryRes : String → Except TError String

/-- Observable transport state: the log of operations issued, in order. -/
structure VisaState where
  calls : List TCall
deriving DecidableEq, Repr

/-- The transport's `write(cmd)`: one write operation is issued; the outcome
is whatever the transport produces. -/
def visaWrite (b : VisaBehavior) (cmd : String) (s : VisaState) :
    Except TError Unit × VisaState :=
  (b.writeRes cmd, ⟨s.calls ++ [TCall.write cmd]⟩)

/-- The transport's `query(cmd)`: one send-and-blocking-read operation is
issued; the outcome is the raw (untrimmed) reply or a failure. -/
def visaQuery (b : VisaBehavior) (cmd : String) (s : VisaState) :
    Except TError String × VisaState :=
  (b.queryRes cmd, ⟨s.calls ++ [TCall.query cmd]⟩)

namespace MT8000A

/-- `MT8000A.write(cmd)`: `self._inst.write(cmd)` — one transport write, no
exception handling around it. -/
def write (b : VisaBehavior) (cmd : String) (s : VisaState) :
    Except TError Unit × VisaState :=
  visaWrite b cmd s

/-- `MT8000A.query(cmd)`: `resp = self._inst.query(cmd).strip(); return resp`
— one transport query, the reply stripped of leading/trailing whitespace, no
exception handling around it. -/
def query (b : VisaBehavior) (cmd : String) (s : VisaState) :
    Except TError String × VisaState :=
  let r := visaQuery b cmd s
  (r.1.map pystrip, r.2)

end MT8000A

namespace MT8821C

/-- `MT8821C.write(cmd)`: `self._inst.write(cmd)` — identical body to
`MT8000A.write`. -/
def write (b : VisaBehavior) (cmd : String) (s : VisaState) :
    Except TError Unit × VisaState :=
  visaWrite b cmd s

/-- `MT8821C.query(cmd)`: `resp = self._inst.query(cmd).strip(); return resp`
— identical body to `MT8000A.query`. -/
def query (b : VisaBehavior) (cmd : String) (s : VisaState) :
    Except TError String × VisaState :=
  let r := visaQuery b cmd s
  (r.1.map pystrip, r.2)

end MT8821C

/-! ## Encoder invocations under the process state

The encoders are `@staticmethod`s whose bodies are single f-string
expressions over their parameters; they reference neither `self` nor any
module-level mutable state.  To state purity, an invocation is embedded as a
function of the process/transport state as well. -/

/-- Invocation of `set_band(cc, band)` under the process state: the body
`return f"BAND {cc},{band}"` reads no mutable state and performs no I/O. -/
def set_band_invoke (cc : String) (band : Int) (s : VisaState) :
    String × VisaState :=
  (MT8000A.set_band cc band, s)

/-- Invocation of `set_call_processing(on_off)` under the process state: the
body is a single f-string over the parameter. -/
def set_call_processing_invoke (on_off : Bool) (s : VisaState) :
    String × VisaState :=
  (MT8000A.set_call_processing on_off, s)

/-- Invocation of `query_aclr(*args)` under the process state: the body only
builds a string from `args`. -/
def query_aclr_invoke (args : List PyArg) (s : VisaState) :
    String × VisaState :=
  (MT8000A.query_aclr args, s)

/-! ## Call-connection poller

`wait_for_call_connected` appears in the source only as commented-out code
(lines 177–189), so the poller is modelled from the specification. -/

/-- Modelled from the spec: classification of a trimmed call-status reply
(§4.3 step 2a) — `CONNECTED` iff it contains the case-insensitive substring
"CONNECTED" or equals the reserved connected status code `"6"`; anything
else, including empty or malformed text, is `NOT_CONNECTED`. -/
def connectedReply (status : String) : Bool :=
  pyContains (pyUpper status) "CONNECTED" || status == "6"

/-- Modelled from the spec: the loop of the call-connection poller (§4.3).
`replies k` is the raw transport reply to the (k+1)-st `CALLSTAT?` query;
the Session returns it stripped (§4.2).  `n` counts queries already issued,
`now` the elapsed time units, `deadline` the recorded deadline.  Each
iteration issues one query, classifies the trimmed reply, returns success on
`CONNECTED`, returns failure once `now ≥ deadline`, and otherwise suspends
for one poll interval and repeats.  Result: (connected?, queries issued). -/
def pollFrom (replies : Nat → String) (deadline interval : Nat)
    (hI : 0 < interval) (n now : Nat) : Bool × Nat :=
  let status := pystrip (replies n)
  if connectedReply status then (true, n + 1)
  else if h : deadline ≤ now then (false, n + 1)
  else pollFrom replies deadline interval hI (n + 1) (now + interval)
termination_by deadline - now
decreasing_by simp_wf; omega

/-- Modelled from the spec: `wait_for_call_connected(timeout_s=60,
poll_interval_s=1)` — record deadline = now + timeout (time starts at 0),
then run the polling loop; the timeout is reported as the Boolean result
`false`, not raised.  Also returns the number of status queries issued. -/
def wait_for_call_connected (replies : Nat → String)
    (timeout_s : Nat := 60) (poll_interval_s : Nat := 1)
    (hI : 0 < poll_interval_s) : Bool × Nat :=
  pollFrom replies timeout_s poll_interval_s hI 0 0

/-- A transport behaviour whose queries succeed with the raw reply
`" 6 \r\n"` (used to exercise the Session query discipline). -/
def demoOkBehavior : VisaBehavior :=
  ⟨fun _ => Except.ok (), fun _ => Except.ok " 6 \r\n"⟩

/-- A transport behaviour that fails every write and query with one fixed
I/O error (used to exercise failure propagation). -/
def demoErrBehavior : VisaBehavior :=
  ⟨fun _ => Except.error ⟨"visa io error"⟩, fun _ => Except.error ⟨"visa io error"⟩⟩

/-! ## Theorems -/

/-- The polling loop returns success after exactly `d + 1` queries when the
reply to query `n + d` is the first (from `n` on) to classify as connected
and every earlier query happens strictly before the deadline. -/
theorem pollFrom_success (replies : Nat → String) (deadline interval : Nat)
    (hI : 0 < interval) :
    ∀ d n now,
      connectedReply (pystrip (replies (n + d))) = true →
      (∀ k, k < d → connectedReply (pystrip (replies (n + k))) = false) →
      (∀ k, k < d → now + k * interval < deadline) →
      pollFrom replies deadline interval hI n now = (true, n + d + 1) := by
  intro d
  induction d with
  | zero =>
    intro n now hc _ _
    rw [pollFrom]
    simp only [Nat.add_zero] at hc
    simp [hc]
  | succ d ih =>
    intro n now hc hprev hreach
    have h0 : connectedReply (pystrip (replies n)) = false := by
      have h := hprev 0 (Nat.succ_pos d)
      simpa using h
    have hnow : now < deadline := by
      have h := hreach 0 (Nat.succ_pos d)
      simpa using h
    have hc' : connectedReply (pystrip (replies (n + 1 + d))) = true := by
      have e : n + 1 + d = n + (d + 1) := by omega
      rw [e]; exact hc
    have hp' : ∀ k, k < d → connectedReply (pystrip (replies (n + 1 + k))) = false := by
      intro k hk
      have e : n + 1 + k = n + (k + 1) := by omega
      rw [e]; exact hprev (k + 1) (by omega)
    have hr' : ∀ k, k < d → (now + interval) + k * interval < deadline := by
      intro k hk
      have h2 := hreach (k + 1) (by omega)
      have h3 : (k + 1) * interval = k * interval + interval := Nat.succ_mul k interval
      omega
    have hrec := ih (n + 1) (now + interval) hc' hp' hr'
    rw [pollFrom]
    simp only [h0, Bool.false_eq_true, if_false]
    rw [dif_neg (by omega : ¬ deadline ≤ now)]
    rw [hrec]
    have e : n + 1 + d + 1 = n + (d + 1) + 1 := by omega
    rw [e]

/-- The polling loop reports failure as an ordinary Boolean when no reply
ever classifies as connected. -/
theorem pollFrom_fail (replies : Nat → String) (deadline interval : Nat)
    (hI : 0 < interval)
    (hall : ∀ k, connectedReply (pystrip (replies k)) = false) :
    ∀ m n now, deadline - now ≤ m →
      (pollFrom replies deadline interval hI n now).1 = false := by
  intro m
  induction m with
  | zero =>
    intro n now hm
    rw [pollFrom]
    simp only [hall n, Bool.false_eq_true, if_false]
    rw [dif_pos (by omega : deadline ≤ now)]
  | succ m ih =>
    intro n now hm
    rw [pollFrom]
    simp only [hall n, Bool.false_eq_true, if_false]
    by_cases hd : deadline ≤ now
    · rw [dif_pos hd]
    · rw [dif_neg hd]
      exact ih (n + 1) (now + interval) (by omega)

/-- C1: the call-connection poller repeatedly issues the call-status query;
it returns success immediately when a trimmed reply contains the
case-insensitive substring "CONNECTED" or equals the reserved connected
status code "6" — if the Nth reply is the first to match (and every earlier
poll falls before the deadline), it returns success after exactly N status
queries — and when no reply ever matches it returns failure (timeout) as an
ordinary Boolean result value rather than raising an exception. -/
theorem C1_wait_for_call_connected :
    (∀ (replies : Nat → String) (timeout interval N : Nat) (hI : 0 < interval),
      0 < N →
      connectedReply (pystrip (replies (N - 1))) = true →
      (∀ k, k < N - 1 → connectedReply (pystrip (replies k)) = false) →
      (∀ k, k < N - 1 → k * interval < timeout) →
      wait_for_call_connected replies timeout interval hI = (true, N))
    ∧ (∀ (replies : Nat → String) (timeout interval : Nat) (hI : 0 < interval),
      (∀ k, connectedReply (pystrip (replies k)) = false) →
      (wait_for_call_connected replies timeout interval hI).1 = false) := by
  constructor
  · intro replies timeout interval N hI hN hc hprev hreach
    unfold wait_for_call_connected
    have h := pollFrom_success replies timeout interval hI (N - 1) 0 0
      (by simpa using hc)
      (by intro k hk; simpa using hprev k hk)
      (by intro k hk; simpa using hreach k hk)
    rw [h]
    have e : 0 + (N - 1) + 1 = N := by omega
    rw [e]
  · intro replies timeout interval hI hall
    unfold wait_for_call_connected
    exact pollFrom_fail replies timeout interval hI hall (timeout - 0) 0 0 (Nat.le_refl _)

/-- Witness for C1: the spec's scenario — the status source replies "4" then
"6" (the reserved connected code), so the poller succeeds after exactly two
queries; a source that always replies "4" makes it report failure. -/
theorem C1_wait_for_call_connected_witness :
    wait_for_call_connected (fun k => if k = 1 then "6" else "4") 60 1 (by norm_num) = (true, 2)
    ∧ (wait_for_call_connected (fun _ => "4") 60 1 (by norm_num)).1 = false := by
  constructor
  · exact C1_wait_for_call_connected.1 (fun k => if k = 1 then "6" else "4") 60 1 2
      (by norm_num) (by norm_num)
      (by decide)
      (by intro k hk
          have e : k = 0 := by omega
          rw [e]; decide)
      (by intro k hk; omega)
  · exact C1_wait_for_call_connected.2 (fun _ => "4") 60 1 (by norm_num)
      (by intro k
          show connectedReply (pystrip "4") = false
          decide)

/-- C2 (code-bug evidence): at `on=True, avg=1` each "set measurement and
optionally set averaging" method returns one single concatenated string —
`set_power_meas`, `set_mod_meas` and `set_sem_meas` even glue the averaging
command directly onto the enable command with no separator at all, and
`set_power_temp_meas` joins the two with a semicolon into one compound
string — never two separate command strings. -/
theorem C2_meas_avg_concatenated :
    MT8000A.set_power_meas true (some 1) = "PWR_MEAS ONPWR_AVG 1"
    ∧ MT8000A.set_mod_meas true (some 1) = "MOD_MEAS ONMOD_AVG 1"
    ∧ MT8000A.set_sem_meas true (some 1) = "SEM_MEAS ONSEM_AVG 1"
    ∧ MT8000A.set_power_temp_meas true (some 1) = "PWRTEMP_MEAS ON;PWRTEMP_AVG 1"
    ∧ MT8000A.set_power_meas true (some 1) ≠ "PWR_MEAS ON" := by
  refine ⟨by decide, by decide, by decide, by decide, by decide⟩

/-- C3 (counterexample): with zero arguments the variadic setter
`set_loss_table_value` does not yield the bare operation name — its f-string
always emits the space, so the result is `"LOSSTBLVAL "` with a trailing
space. -/
theorem C3_counterexample_trailing_space :
    MT8000A.set_loss_table_value [] = "LOSSTBLVAL "
    ∧ MT8000A.set_loss_table_value [] ≠ "LOSSTBLVAL" := by
  refine ⟨by decide, by decide⟩

/-- C3 (amended): variadic query encoders join the arguments with commas in
their default text rendering, yield exactly `OPERATION?` with no trailing
space on zero arguments, and `OPERATION? a,b,…` — one space before the first
argument, commas with no spaces after — otherwise; the variadic setter
encoders instead always emit the operation name followed by one space, so
zero arguments leaves a trailing space. -/
theorem C3_variadic_join (a b : PyArg) (args : List PyArg) :
    MT8000A.query_aclr [] = "ACLR?"
    ∧ MT8000A.query_aclr [a] = "ACLR? " ++ pyStr a
    ∧ MT8000A.query_aclr (a :: b :: args) =
        "ACLR? " ++ pyStr a ++ "," ++ joinArgs (b :: args)
    ∧ MT8000A.query_aclr [PyArg.int 1, PyArg.str "SCC1"] = "ACLR? 1,SCC1"
    ∧ MT8000A.query_channel_power [] = "CHPWR?"
    ∧ MT8000A.query_inband_emission_general [] = "INBANDE_GEN?"
    ∧ MT8000A.set_loss_table_value args = "LOSSTBLVAL " ++ joinArgs args
    ∧ MT8000A.set_ul_alloc_list args = "ULALLOCLIST " ++ joinArgs args := by
  refine ⟨rfl, rfl, ?_, by decide, rfl, rfl, rfl, rfl⟩
  show "ACLR?" ++ " " ++ joinArgs (a :: b :: args) =
    "ACLR? " ++ pyStr a ++ "," ++ joinArgs (b :: args)
  simp only [joinArgs, List.map_cons, joinStrs]
  rw [show ("ACLR?" ++ " ") = "ACLR? " from rfl]
  simp [String.append_assoc]

/-- C4 (counterexample): `query_spec_flatness` does not append its optional
direction after a space — it splices it into the operation token with an
underscore, before the `?`. -/
theorem C4_counterexample_spec_flatness :
    MT8000A.query_spec_flatness "RP1" = "SPECFLAT_RP1?"
    ∧ MT8000A.query_spec_flatness "RP1" ≠ "SPECFLAT? RP1" := by
  refine ⟨by decide, by decide⟩

/-- C4 (amended): query encoders append a literal `?` to the operation
token and yield exactly `OPERATION?` when the optional suffix is omitted;
the suffix-mode queries (`query_sem_pass`, `query_ttl_worst_sem`) append a
supplied mode after a single space, not a comma, while `query_spec_flatness`
splices a supplied direction into the token with an underscore before the
`?`. -/
theorem C4_query_suffix (mode direction : String) :
    MT8000A.query_sem_pass "" = "SEMPASS?"
    ∧ (mode ≠ "" → MT8000A.query_sem_pass mode = "SEMPASS? " ++ mode)
    ∧ MT8000A.query_ttl_worst_sem "" = "TTL_WORST_SEM?"
    ∧ (mode ≠ "" → MT8000A.query_ttl_worst_sem mode = "TTL_WORST_SEM? " ++ mode)
    ∧ MT8000A.query_spec_flatness "" = "SPECFLAT?"
    ∧ (direction ≠ "" →
        MT8000A.query_spec_flatness direction = "SPECFLAT_" ++ direction ++ "?") := by
  refine ⟨rfl, ?_, rfl, ?_, rfl, ?_⟩
  · intro h
    simp only [MT8000A.query_sem_pass, if_pos h]
    rfl
  · intro h
    simp only [MT8000A.query_ttl_worst_sem, if_pos h]
    rfl
  · intro h
    simp only [MT8000A.query_spec_flatness, if_pos h]

/-- Witness for C4 (amended) at `mode = "SUM"`, `direction = "RP1"`. -/
theorem C4_query_suffix_witness :
    MT8000A.query_sem_pass "SUM" = "SEMPASS? SUM"
    ∧ MT8000A.query_spec_flatness "RP1" = "SPECFLAT_RP1?" := by
  have h := C4_query_suffix "SUM" "RP1"
  exact ⟨(h.2.1 (by decide)).trans (by decide),
    (h.2.2.2.2.2 (by decide)).trans (by decide)⟩

/-- C5: every encoder with a boolean parameter, in both classes, renders the
flag as exactly the token `ON` for `True` and `OFF` for `False` — never any
other rendering — including when an averaging count is also supplied. -/
theorem C5_boolean_on_off (a : Int) :
    MT8000A.set_call_processing true = "CALLPROC ON"
    ∧ MT8000A.set_call_processing false = "CALLPROC OFF"
    ∧ MT8000A.set_power_meas true none = "PWR_MEAS ON"
    ∧ MT8000A.set_power_meas false none = "PWR_MEAS OFF"
    ∧ MT8000A.set_power_meas true (some a) = "PWR_MEAS ON" ++ "PWR_AVG " ++ toString a
    ∧ MT8000A.set_mod_meas true none = "MOD_MEAS ON"
    ∧ MT8000A.set_mod_meas false none = "MOD_MEAS OFF"
    ∧ MT8000A.set_sem_meas true none = "SEM_MEAS ON"
    ∧ MT8000A.set_sem_meas false none = "SEM_MEAS OFF"
    ∧ MT8000A.set_obw_meas true = "OBWMEAS ON"
    ∧ MT8000A.set_obw_meas false = "OBWMEAS OFF"
    ∧ MT8000A.set_aclr_meas true = "ACLR_MEAS ON"
    ∧ MT8000A.set_aclr_meas false = "ACLR_MEAS OFF"
    ∧ MT8000A.set_throughput_meas true = "TPUT_MEAS ON"
    ∧ MT8000A.set_throughput_meas false = "TPUT_MEAS OFF"
    ∧ MT8000A.set_power_temp_meas true none = "PWRTEMP_MEAS ON"
    ∧ MT8000A.set_power_temp_meas false none = "PWRTEMP_MEAS OFF"
    ∧ MT8821C.set_call_processing true = "CALLPROC ON"
    ∧ MT8821C.set_call_processing false = "CALLPROC OFF"
    ∧ MT8821C.set_power_meas true = "PWR_MEAS ON"
    ∧ MT8821C.set_power_meas false = "PWR_MEAS OFF"
    ∧ MT8821C.set_throughput_meas true = "TPUT_MEAS ON"
    ∧ MT8821C.set_throughput_meas false = "TPUT_MEAS OFF" := by
  refine ⟨rfl, rfl, rfl, rfl, rfl, rfl, rfl, rfl, rfl, rfl, rfl, rfl,
    rfl, rfl, rfl, rfl, rfl, rfl, rfl, rfl, rfl, rfl, rfl⟩

/-- C6: operations with an optional leading carrier-component qualifier
yield `OPERATION value` when the qualifier is omitted and
`OPERATION qualifier,value` (comma between qualifier and value, one space
after the operation name) when a nonempty qualifier is supplied. -/
theorem C6_optional_leading_qualifier (mode slot c : String) :
    MT8000A.set_frame_type mode none = "FRAMETYPE " ++ mode
    ∧ (c ≠ "" →
        MT8000A.set_frame_type mode (some c) = "FRAMETYPE " ++ c ++ "," ++ mode)
    ∧ MT8000A.set_test_slot slot none = "TESTSLOT " ++ slot
    ∧ (c ≠ "" →
        MT8000A.set_test_slot slot (some c) = "TESTSLOT " ++ c ++ "," ++ slot) := by
  refine ⟨rfl, ?_, rfl, ?_⟩
  · intro h
    simp [MT8000A.set_frame_type, truthyOptStr, showOptStr, h]
  · intro h
    simp [MT8000A.set_test_slot, truthyOptStr, showOptStr, h]

/-- Witness for C6 at `mode = "TDD"`, `slot = "SLOT1"`, qualifier `"SCC1"`. -/
theorem C6_optional_leading_qualifier_witness :
    MT8000A.set_frame_type "TDD" (some "SCC1") = "FRAMETYPE SCC1,TDD"
    ∧ MT8000A.set_test_slot "SLOT1" (some "SCC1") = "TESTSLOT SCC1,SLOT1" := by
  have h := C6_optional_leading_qualifier "TDD" "SLOT1" "SCC1"
  exact ⟨(h.2.1 (by decide)).trans (by decide),
    (h.2.2.2 (by decide)).trans (by decide)⟩

/-- C7: both Session variants' query issues the command as exactly one
transport query (a write followed by one blocking read of the reply), and
returns the reply with leading and trailing whitespace stripped and no other
transformation; the two variants behave identically. -/
theorem C7_session_query (b : VisaBehavior) (cmd raw : String) (s : VisaState)
    (h : b.queryRes cmd = Except.ok raw) :
    (MT8000A.query b cmd s).1 = Except.ok (pystrip raw)
    ∧ (MT8000A.query b cmd s).2.calls = s.calls ++ [TCall.query cmd]
    ∧ MT8821C.query b cmd s = MT8000A.query b cmd s := by
  refine ⟨?_, rfl, rfl⟩
  show Except.map pystrip (b.queryRes cmd) = Except.ok (pystrip raw)
  rw [h]
  rfl

/-- Witness for C7: a transport replying `" 6 \r\n"` to `CALLSTAT?` makes
both Sessions return `"6"` after exactly one transport query. -/
theorem C7_session_query_witness :
    (MT8000A.query demoOkBehavior "CALLSTAT?" ⟨[]⟩).1 = Except.ok "6"
    ∧ (MT8000A.query demoOkBehavior "CALLSTAT?" ⟨[]⟩).2.calls = [TCall.query "CALLSTAT?"]
    ∧ MT8821C.query demoOkBehavior "CALLSTAT?" ⟨[]⟩ =
        MT8000A.query demoOkBehavior "CALLSTAT?" ⟨[]⟩ := by
  have h := C7_session_query demoOkBehavior "CALLSTAT?" " 6 \r\n" ⟨[]⟩ rfl
  refine ⟨?_, ?_, h.2.2⟩
  · rw [h.1]
    have e : pystrip " 6 \r\n" = "6" := by decide
    rw [e]
  · rw [h.2.1]
    rfl

/-- C8: Session write and query propagate a transport failure unmodified to
the caller — the failing operation is issued exactly once (no retry, no
recovery), the same error value comes back, and both Session variants do the
same. -/
theorem C8_transport_error_propagation (b : VisaBehavior) (cmd : String)
    (s : VisaState) (e : TError) :
    (b.writeRes cmd = Except.error e →
      (MT8000A.write b cmd s).1 = Except.error e
      ∧ (MT8000A.write b cmd s).2.calls = s.calls ++ [TCall.write cmd]
      ∧ MT8821C.write b cmd s = MT8000A.write b cmd s)
    ∧ (b.queryRes cmd = Except.error e →
      (MT8000A.query b cmd s).1 = Except.error e
      ∧ (MT8000A.query b cmd s).2.calls = s.calls ++ [TCall.query cmd]
      ∧ MT8821C.query b cmd s = MT8000A.query b cmd s) := by
  constructor
  · intro h
    exact ⟨h, rfl, rfl⟩
  · intro h
    refine ⟨?_, rfl, rfl⟩
    show Except.map pystrip (b.queryRes cmd) = Except.error e
    rw [h]
    rfl

/-- Witness for C8: a transport that fails every operation with one I/O
error makes both the write and the query of both Sessions surface exactly
that error after exactly one transport call. -/
theorem C8_transport_error_propagation_witness :
    (MT8000A.write demoErrBehavior "PRESET" ⟨[]⟩).1 = Except.error ⟨"visa io error"⟩
    ∧ (MT8000A.write demoErrBehavior "PRESET" ⟨[]⟩).2.calls = [TCall.write "PRESET"]
    ∧ (MT8000A.query demoErrBehavior "CALLSTAT?" ⟨[]⟩).1 = Except.error ⟨"visa io error"⟩
    ∧ MT8821C.query demoErrBehavior "CALLSTAT?" ⟨[]⟩ =
        MT8000A.query demoErrBehavior "CALLSTAT?" ⟨[]⟩ := by
  have hw := (C8_transport_error_propagation demoErrBehavior "PRESET" ⟨[]⟩
    ⟨"visa io error"⟩).1 rfl
  have hq := (C8_transport_error_propagation demoErrBehavior "CALLSTAT?" ⟨[]⟩
    ⟨"visa io error"⟩).2 rfl
  refine ⟨hw.1, ?_, hq.1, hq.2.2⟩
  rw [hw.2.1]
  rfl

/-- C9: command encoders are pure functions of their arguments — invoked
under any process/transport state they return the same output string, leave
the state untouched, and a repeated invocation with the same arguments
yields a byte-identical string. -/
theorem C9_encoder_purity (cc : String) (band : Int) (on_off : Bool)
    (args : List PyArg) (s t : VisaState) :
    (set_band_invoke cc band s).1 = (set_band_invoke cc band t).1
    ∧ (set_band_invoke cc band s).2 = s
    ∧ (set_band_invoke cc band (set_band_invoke cc band s).2).1 =
        (set_band_invoke cc band s).1
    ∧ (set_call_processing_invoke on_off s).1 = (set_call_processing_invoke on_off t).1
    ∧ (set_call_processing_invoke on_off s).2 = s
    ∧ (query_aclr_invoke args s).1 = (query_aclr_invoke args t).1
    ∧ (query_aclr_invoke args s).2 = s := by
  exact ⟨rfl, rfl, rfl, rfl, rfl, rfl, rfl⟩

/-- C10: the optional qualifier / suffix-mode string parameters are tested
for truthiness, so supplying `""` yields the unqualified or bare form exactly
as if the argument were omitted; `query_system_select` instead tests
`is not None`, so `system_num = 0` yields `SYSSEL? 0`, not the bare
`SYSSEL?`. -/
theorem C10_truthiness_vs_none (slot mode : String) :
    MT8000A.set_test_slot slot (some "") = MT8000A.set_test_slot slot none
    ∧ MT8000A.set_frame_type mode (some "") = MT8000A.set_frame_type mode none
    ∧ MT8000A.query_sem_pass "" = MT8000A.query_sem_pass
    ∧ MT8000A.query_sem_pass "" = "SEMPASS?"
    ∧ MT8000A.query_system_select (some 0) = "SYSSEL? 0"
    ∧ MT8000A.query_system_select none = "SYSSEL?" := by
  refine ⟨?_, ?_, rfl, rfl, by decide, rfl⟩
  · simp [MT8000A.set_test_slot, truthyOptStr]
  · simp [MT8000A.set_frame_type, truthyOptStr]

end MT8000Lib
